import Mathlib

/-!
Shallow embedding of the `bill` package of lawwm/pb-assignment.

The embedding covers:
- the in-memory orchestrator loop `BillWorkflow` (src/bill/workflow.go):
  per-bill state `BillResult`, the add-line-item branch and the close
  branch of the select loop, modelled as a fold over the ordered sequence
  of commands the loop dequeues;
- the DB-backed activities (src/bill/activities.go): `AddLineItemActivity`
  and `CloseBillActivity`, over an explicit relational state `DB` holding
  the `bills` and `bill_line_items` tables of
  src/bill/migrations/1_init_billing.up.sql;
- the schema admissibility constraints of the migration file.

Go `int64` amounts are modelled as `Int`: the only arithmetic performed is
addition and no claim depends on wrap-around at the 64-bit boundary.
Go `string` status/currency values are modelled as `String` with the same
constants as the source.  SQL `now()` timestamps are passed in explicitly
as a `Nat` parameter.
-/

namespace PB

/-- Currency constant from store.go: `CurrencyUSD Currency = "USD"`. -/
def CurrencyUSD : String := "USD"

/-- Currency constant from store.go: `CurrencyGEL Currency = "GEL"`. -/
def CurrencyGEL : String := "GEL"

/-- Method `Valid` of `Currency` from store.go: true exactly on USD and GEL. -/
def currencyValid (c : String) : Bool :=
  c == CurrencyUSD || c == CurrencyGEL

/-- Status constant from store.go: `StatusOpen BillStatus = "OPEN"`. -/
def StatusOpen : String := "OPEN"

/-- Status constant from store.go: `StatusClosed BillStatus = "CLOSED"`. -/
def StatusClosed : String := "CLOSED"

/-- Structure `BillWorkflowParams` from workflow.go. -/
structure BillWorkflowParams where
  BillID : String
  Currency : String
  deriving Repr, DecidableEq

/-- Structure `AddLineItemSignal` from workflow.go. -/
structure AddLineItemSignal where
  LineItemID : String
  AmountMinor : Int
  Description : String
  Currency : String
  deriving Repr, DecidableEq

/-- Structure `LineItemState` from workflow.go. -/
structure LineItemState where
  ID : String
  AmountMinor : Int
  Description : String
  deriving Repr, DecidableEq

/-- Structure `BillResult` from workflow.go: also the in-memory `state` of the loop. -/
structure BillResult where
  BillID : String
  Currency : String
  TotalMinor : Int
  Items : List LineItemState
  deriving Repr, DecidableEq

/-- A command dequeued by the orchestrator loop: either an
`add-line-item` signal or a `close-bill` signal (`CloseBillSignal` carries
no data). -/
inductive Command where
  | add (sig : AddLineItemSignal)
  | close
  deriving Repr, DecidableEq

/-- The initial `state` built at the top of `BillWorkflow`:
`{BillID, Currency, TotalMinor: 0, Items: []}`. -/
def initState (params : BillWorkflowParams) : BillResult :=
  { BillID := params.BillID
    Currency := params.Currency
    TotalMinor := 0
    Items := [] }

/-- The body of the add-receive callback after the currency guard:
append the item to `state.Items` and add `sig.AmountMinor` to
`state.TotalMinor`. -/
def applyAddItem (state : BillResult) (sig : AddLineItemSignal) : BillResult :=
  { state with
    Items := state.Items ++
      [{ ID := sig.LineItemID
         AmountMinor := sig.AmountMinor
         Description := sig.Description }]
    TotalMinor := state.TotalMinor + sig.AmountMinor }

/-- The full add-receive callback of `BillWorkflow`, including the guard
`if sig.Currency != state.Currency { return }`. -/
def applyAdd (state : BillResult) (sig : AddLineItemSignal) : BillResult :=
  if sig.Currency ≠ state.Currency then state
  else applyAddItem state sig

/-- The select loop of `BillWorkflow`, folded over the ordered sequence of
commands it dequeues.  A `close` command sets `shouldClose`, breaks the
loop and returns the current state; commands after the break are never
processed.  If the sequence is exhausted without a `close` the loop is
still waiting, modelled as `none`. -/
def runLoop : BillResult → List Command → Option BillResult
  | _, [] => none
  | state, Command.add sig :: rest => runLoop (applyAdd state sig) rest
  | state, Command.close :: _ => some state

/-- Function `BillWorkflow` from workflow.go, as a function of the ordered command
sequence the loop dequeues. -/
def BillWorkflow (params : BillWorkflowParams) (cmds : List Command) :
    Option BillResult :=
  runLoop (initState params) cmds

/-- Sum of `AmountMinor` over a list of in-memory line items. -/
def itemsTotal (items : List LineItemState) : Int :=
  (items.map LineItemState.AmountMinor).sum

/-- The state seen at entry of each loop iteration, ending with the state
returned at the break (or the last waiting state when no close arrives). -/
def loopTrace : BillResult → List Command → List BillResult
  | state, [] => [state]
  | state, Command.add sig :: rest => state :: loopTrace (applyAdd state sig) rest
  | state, Command.close :: _ => [state]

/-!
## Relational state and activities (src/bill/activities.go)
-/

/-- A row of the `bills` table (1_init_billing.up.sql).  `closed_at` is
nullable, the other columns are NOT NULL. -/
structure BillRow where
  id : String
  status : String
  currency : String
  total_minor : Int
  created_at : Nat
  closed_at : Option Nat
  deriving Repr, DecidableEq

/-- A row of the `bill_line_items` table (1_init_billing.up.sql). -/
structure LineItemRow where
  id : String
  bill_id : String
  description : String
  amount_minor : Int
  created_at : Nat
  deriving Repr, DecidableEq

/-- The database: the two tables of the migration. -/
structure DB where
  bills : List BillRow
  lineItems : List LineItemRow
  deriving Repr, DecidableEq

/-- CHECK constraints of the `bills` table:
`status IN ('OPEN','CLOSED')` and `currency IN ('USD','GEL')`. -/
def billsRowCheck (b : BillRow) : Bool :=
  (b.status == StatusOpen || b.status == StatusClosed) &&
  (b.currency == CurrencyUSD || b.currency == CurrencyGEL)

/-- Row-level admissibility of a `bill_line_items` row against the schema:
the only constraint beyond NOT NULL (all fields are total here) is the
foreign key `bill_id REFERENCES bills(id)`; the table declares no CHECK
constraint at all, in particular none on `amount_minor`. -/
def lineItemRowCheck (db : DB) (li : LineItemRow) : Bool :=
  db.bills.any (fun b => b.id == li.bill_id)

/-- Error codes used by the `bill` package (`encore.dev/beta/errs`). -/
inductive ErrCode where
  | InvalidArgument
  | NotFound
  | FailedPrecondition
  | Internal
  deriving Repr, DecidableEq

/-- An `errs` error as built by `errs.B().Code(c).Msg(m).Err()`. -/
structure Err where
  code : ErrCode
  msg : String
  deriving Repr, DecidableEq

/-- Structure `AddLineItemInput` from activities.go. -/
structure AddLineItemInput where
  LineItemID : String
  BillID : String
  Description : String
  AmountMinor : Int
  Currency : String
  deriving Repr, DecidableEq

/-- Structure `CloseBillInput` from activities.go. -/
structure CloseBillInput where
  BillID : String
  TotalMinor : Int
  deriving Repr, DecidableEq

/-- Activity `AddLineItemActivity` from activities.go.  Returns the database after
the call together with the activity's own result.  Steps, in source
order: reject `AmountMinor <= 0` with InvalidArgument; `SELECT status,
currency FROM bills WHERE id = $1` (scan failure is NotFound); reject a
non-Open status with FailedPrecondition; reject a currency mismatch with
FailedPrecondition; `INSERT ... ON CONFLICT (id) DO NOTHING` into
`bill_line_items`; read the row with that id back and return it.  `now`
is the insertion timestamp the SQL `now()` default would produce. -/
def AddLineItemActivity (db : DB) (now : Nat) (inp : AddLineItemInput) :
    DB × Except Err LineItemRow :=
  if inp.AmountMinor ≤ 0 then
    (db, Except.error { code := ErrCode.InvalidArgument, msg := "amount must be positive" })
  else
    match db.bills.find? (fun b => b.id == inp.BillID) with
    | none => (db, Except.error { code := ErrCode.NotFound, msg := "bill not found" })
    | some b =>
      if b.status ≠ StatusOpen then
        (db, Except.error { code := ErrCode.FailedPrecondition, msg := "bill is closed" })
      else if b.currency ≠ inp.Currency then
        (db, Except.error { code := ErrCode.FailedPrecondition, msg := "currency mismatch" })
      else
        let db1 : DB :=
          if db.lineItems.any (fun li => li.id == inp.LineItemID) then db
          else
            { db with lineItems := db.lineItems ++
                [{ id := inp.LineItemID
                   bill_id := inp.BillID
                   description := inp.Description
                   amount_minor := inp.AmountMinor
                   created_at := now }] }
        match db1.lineItems.find? (fun li => li.id == inp.LineItemID) with
        | none => (db1, Except.error { code := ErrCode.Internal, msg := "read line item" })
        | some li => (db1, Except.ok li)

/-- The WHERE clause of `CloseBillActivity`: `id = $1 AND status = 'OPEN'`. -/
def closeMatches (inp : CloseBillInput) (b : BillRow) : Bool :=
  b.id == inp.BillID && b.status == StatusOpen

/-- The SET clause of `CloseBillActivity`:
`status = 'CLOSED', total_minor = $3, closed_at = now()`. -/
def closeUpdate (inp : CloseBillInput) (now : Nat) (b : BillRow) : BillRow :=
  { b with status := StatusClosed, total_minor := inp.TotalMinor, closed_at := some now }

/-- Activity `CloseBillActivity` from activities.go: a single
`UPDATE bills SET ... WHERE id = $1 AND status = 'OPEN' RETURNING ...`.
The update rewrites every matching row (at most one, `id` being the
primary key); when no row matches, the RETURNING scan fails and the
activity surfaces FailedPrecondition. -/
def CloseBillActivity (db : DB) (now : Nat) (inp : CloseBillInput) :
    DB × Except Err BillRow :=
  let db1 : DB :=
    { db with bills :=
        db.bills.map (fun b => if closeMatches inp b then closeUpdate inp now b else b) }
  match db.bills.find? (closeMatches inp) with
  | none =>
      (db1, Except.error { code := ErrCode.FailedPrecondition,
                           msg := "bill already closed or not found" })
  | some b => (db1, Except.ok (closeUpdate inp now b))

/-!
## Small-step run relation of the orchestrator loop

One loop iteration of `BillWorkflow` dequeues one command and either
continues (add branch, with its two cases matching the currency guard)
or breaks and returns the current state (close branch).  `RunsTo s cmds r`
holds when a run of the loop from state `s` dequeuing the ordered
sequence `cmds` terminates with result `r`.
-/

/-- Run relation of the `BillWorkflow` select loop, one constructor per
control path of the loop body. -/
inductive RunsTo : BillResult → List Command → BillResult → Prop where
  | closeHere (state : BillResult) (rest : List Command) :
      RunsTo state (Command.close :: rest) state
  | addSkip {state : BillResult} {sig : AddLineItemSignal}
      {rest : List Command} {r : BillResult}
      (hne : sig.Currency ≠ state.Currency)
      (h : RunsTo state rest r) :
      RunsTo state (Command.add sig :: rest) r
  | addApply {state : BillResult} {sig : AddLineItemSignal}
      {rest : List Command} {r : BillResult}
      (heq : sig.Currency = state.Currency)
      (h : RunsTo (applyAddItem state sig) rest r) :
      RunsTo state (Command.add sig :: rest) r

/-- The insert-line-item step as the spec's orchestrator contract names
it (spec section 4.1, step 2): run `AddLineItemActivity` and, on success,
perform the in-memory apply of workflow.go (append the corresponding
signal's item and add its amount to the running total); on failure leave
the in-memory state alone. -/
def insertLineItemStep (db : DB) (state : BillResult) (now : Nat)
    (inp : AddLineItemInput) : DB × BillResult :=
  match AddLineItemActivity db now inp with
  | (db1, Except.ok _) =>
      (db1, applyAdd state
        { LineItemID := inp.LineItemID
          AmountMinor := inp.AmountMinor
          Description := inp.Description
          Currency := inp.Currency })
  | (db1, Except.error _) => (db1, state)

/-!
## Concrete scenario data (spec section 8 scenario)
-/

/-- Workflow parameters of the scenario bill: a fresh USD bill. -/
def scenarioParams : BillWorkflowParams :=
  { BillID := "bill-1", Currency := "USD" }

/-- Command sequence of the scenario: add 12.50 USD, add 7.25 USD, close. -/
def scenarioCmds : List Command :=
  [Command.add { LineItemID := "li-1", AmountMinor := 1250,
                 Description := "item one", Currency := "USD" },
   Command.add { LineItemID := "li-2", AmountMinor := 725,
                 Description := "item two", Currency := "USD" },
   Command.close]

/-- Database holding the freshly created scenario bill row (as
`CreateBillRowActivity` leaves it: status OPEN, total 0, no close time). -/
def scenarioDB : DB :=
  { bills := [{ id := "bill-1", status := "OPEN", currency := "USD",
                total_minor := 0, created_at := 0, closed_at := none }]
    lineItems := [] }

/-- The `bill_line_items` row the activity's INSERT writes for an input
(the VALUES clause plus the `created_at` default). -/
def insertedRow (now : Nat) (inp : AddLineItemInput) : LineItemRow :=
  { id := inp.LineItemID, bill_id := inp.BillID, description := inp.Description,
    amount_minor := inp.AmountMinor, created_at := now }

/-- An add-line-item input delivered twice (a redelivered command) against
the scenario bill. -/
def dupInput : AddLineItemInput :=
  { LineItemID := "li-dup", BillID := "bill-1", Description := "duplicate delivery",
    AmountMinor := 1250, Currency := "USD" }

/-- First delivery of `dupInput`: database and in-memory state after one
insert-line-item step on the fresh scenario bill. -/
def dupRun1 : DB × BillResult :=
  insertLineItemStep scenarioDB (initState scenarioParams) 1 dupInput

/-- Second delivery of the same `dupInput` on the state `dupRun1` left. -/
def dupRun2 : DB × BillResult :=
  insertLineItemStep dupRun1.1 dupRun1.2 2 dupInput

/-- The in-memory state the scenario run is expected to return. -/
def scenarioFinal : BillResult :=
  { BillID := "bill-1", Currency := "USD", TotalMinor := 1975,
    Items := [{ ID := "li-1", AmountMinor := 1250, Description := "item one" },
              { ID := "li-2", AmountMinor := 725, Description := "item two" }] }

/-!
## Helper lemmas
-/

lemma itemsTotal_append (items : List LineItemState) (x : LineItemState) :
    itemsTotal (items ++ [x]) = itemsTotal items + x.AmountMinor := by
  simp [itemsTotal]

lemma applyAddItem_total (state : BillResult) (sig : AddLineItemSignal)
    (h : state.TotalMinor = itemsTotal state.Items) :
    (applyAddItem state sig).TotalMinor = itemsTotal (applyAddItem state sig).Items := by
  simp [applyAddItem, itemsTotal_append, h]

lemma applyAdd_total (state : BillResult) (sig : AddLineItemSignal)
    (h : state.TotalMinor = itemsTotal state.Items) :
    (applyAdd state sig).TotalMinor = itemsTotal (applyAdd state sig).Items := by
  unfold applyAdd
  split
  · exact h
  · exact applyAddItem_total state sig h

lemma loopTrace_inv (cmds : List Command) :
    ∀ state : BillResult, state.TotalMinor = itemsTotal state.Items →
      ∀ s ∈ loopTrace state cmds, s.TotalMinor = itemsTotal s.Items := by
  induction cmds with
  | nil =>
    intro state h s hs
    simp [loopTrace] at hs
    exact hs ▸ h
  | cons c rest ih =>
    intro state h s hs
    cases c with
    | add sig =>
      simp only [loopTrace, List.mem_cons] at hs
      rcases hs with rfl | hs
      · exact h
      · exact ih (applyAdd state sig) (applyAdd_total state sig h) s hs
    | close =>
      simp [loopTrace] at hs
      exact hs ▸ h

lemma runLoop_mem_loopTrace (cmds : List Command) :
    ∀ state r : BillResult, runLoop state cmds = some r → r ∈ loopTrace state cmds := by
  induction cmds with
  | nil => intro state r h; simp [runLoop] at h
  | cons c rest ih =>
    intro state r h
    cases c with
    | add sig =>
      simp only [runLoop] at h
      simp only [loopTrace, List.mem_cons]
      exact Or.inr (ih _ _ h)
    | close =>
      simp only [runLoop, Option.some.injEq] at h
      simp [loopTrace, h]

/-!
## Claim theorems
-/

/-- C1: at every iteration of the orchestrator loop — the state at each
loop entry and the state the loop returns — the in-memory running total
`state.TotalMinor` equals the sum of `AmountMinor` over `state.Items`;
this holds at the initial state (total 0, empty list) and is preserved by
both the add-line-item branch and the close branch, for every command
sequence. -/
theorem billWorkflow_total_matches_items (params : BillWorkflowParams)
    (cmds : List Command) :
    (∀ s ∈ loopTrace (initState params) cmds, s.TotalMinor = itemsTotal s.Items) ∧
    (∀ r : BillResult, BillWorkflow params cmds = some r →
      r.TotalMinor = itemsTotal r.Items) := by
  have hinit : (initState params).TotalMinor = itemsTotal (initState params).Items := by
    simp [initState, itemsTotal]
  refine ⟨loopTrace_inv cmds (initState params) hinit, ?_⟩
  intro r hr
  exact loopTrace_inv cmds (initState params) hinit r
    (runLoop_mem_loopTrace cmds (initState params) r hr)

/-- Witness for C1 at a concrete run: the state returned for the
scenario commands satisfies the invariant. -/
theorem billWorkflow_total_matches_items_witness :
    ({ BillID := "bill-1", Currency := "USD", TotalMinor := 1975,
       Items := [{ ID := "li-1", AmountMinor := 1250, Description := "item one" },
                 { ID := "li-2", AmountMinor := 725, Description := "item two" }] } :
      BillResult).TotalMinor =
    itemsTotal [{ ID := "li-1", AmountMinor := 1250, Description := "item one" },
                { ID := "li-2", AmountMinor := 725, Description := "item two" }] :=
  (billWorkflow_total_matches_items scenarioParams scenarioCmds).2
    { BillID := "bill-1", Currency := "USD", TotalMinor := 1975,
      Items := [{ ID := "li-1", AmountMinor := 1250, Description := "item one" },
                { ID := "li-2", AmountMinor := 725, Description := "item two" }] }
    (by decide)

lemma runsTo_unique {state : BillResult} {cmds : List Command}
    {r1 r2 : BillResult} (h1 : RunsTo state cmds r1) (h2 : RunsTo state cmds r2) :
    r1 = r2 := by
  induction h1 generalizing r2 with
  | closeHere s rest =>
    cases h2
    rfl
  | addSkip hne h ih =>
    cases h2 with
    | addSkip hne2 h2 => exact ih h2
    | addApply heq2 h2 => exact absurd heq2 hne
  | addApply heq h ih =>
    cases h2 with
    | addSkip hne2 h2 => exact absurd heq hne2
    | addApply heq2 h2 => exact ih h2

lemma runsTo_of_runLoop (cmds : List Command) :
    ∀ state r : BillResult, runLoop state cmds = some r → RunsTo state cmds r := by
  induction cmds with
  | nil => intro state r h; simp [runLoop] at h
  | cons c rest ih =>
    intro state r h
    cases c with
    | add sig =>
      simp only [runLoop] at h
      by_cases hc : sig.Currency = state.Currency
      · have happ : applyAdd state sig = applyAddItem state sig := by
          simp [applyAdd, hc]
        exact RunsTo.addApply hc (ih _ _ (happ ▸ h))
      · have happ : applyAdd state sig = state := by
          simp [applyAdd, hc]
        exact RunsTo.addSkip hc (ih _ _ (happ ▸ h))
    | close =>
      simp only [runLoop, Option.some.injEq] at h
      exact h ▸ RunsTo.closeHere state rest

/-- C6: determinism of the orchestrator: two runs of the `BillWorkflow`
loop from the same initial parameters that process the same ordered
sequence of commands produce the same running total and the same item
list. -/
theorem billWorkflow_deterministic (params : BillWorkflowParams)
    (cmds : List Command) (r1 r2 : BillResult)
    (h1 : RunsTo (initState params) cmds r1)
    (h2 : RunsTo (initState params) cmds r2) :
    r1.TotalMinor = r2.TotalMinor ∧ r1.Items = r2.Items := by
  have heq : r1 = r2 := runsTo_unique h1 h2
  exact ⟨by rw [heq], by rw [heq]⟩

/-- Witness for C6: two (syntactically distinct derivations of) runs on
the scenario commands agree. -/
theorem billWorkflow_deterministic_witness :
    ({ BillID := "bill-1", Currency := "USD", TotalMinor := 1975,
       Items := [{ ID := "li-1", AmountMinor := 1250, Description := "item one" },
                 { ID := "li-2", AmountMinor := 725, Description := "item two" }] } :
        BillResult).TotalMinor =
      ({ BillID := "bill-1", Currency := "USD", TotalMinor := 1975,
         Items := [{ ID := "li-1", AmountMinor := 1250, Description := "item one" },
                   { ID := "li-2", AmountMinor := 725, Description := "item two" }] } :
        BillResult).TotalMinor :=
  (billWorkflow_deterministic scenarioParams scenarioCmds
    { BillID := "bill-1", Currency := "USD", TotalMinor := 1975,
      Items := [{ ID := "li-1", AmountMinor := 1250, Description := "item one" },
                { ID := "li-2", AmountMinor := 725, Description := "item two" }] }
    { BillID := "bill-1", Currency := "USD", TotalMinor := 1975,
      Items := [{ ID := "li-1", AmountMinor := 1250, Description := "item one" },
                { ID := "li-2", AmountMinor := 725, Description := "item two" }] }
    (runsTo_of_runLoop scenarioCmds (initState scenarioParams) _ (by decide))
    (runsTo_of_runLoop scenarioCmds (initState scenarioParams) _ (by decide))).1

/-- C8: the orchestrator loop performs no deduplication by `LineItemID`:
receiving the same matching-currency add signal twice appends two entries
(both carrying the signal's `LineItemID`) and adds the amount to the
running total twice. -/
theorem billWorkflow_counts_duplicate_signals (state : BillResult)
    (sig : AddLineItemSignal) (h : sig.Currency = state.Currency) :
    (applyAdd (applyAdd state sig) sig).Items.length = state.Items.length + 2 ∧
    (applyAdd (applyAdd state sig) sig).TotalMinor =
      state.TotalMinor + 2 * sig.AmountMinor ∧
    (applyAdd (applyAdd state sig) sig).Items =
      state.Items ++
        [{ ID := sig.LineItemID, AmountMinor := sig.AmountMinor,
           Description := sig.Description },
         { ID := sig.LineItemID, AmountMinor := sig.AmountMinor,
           Description := sig.Description }] := by
  have h1 : applyAdd state sig = applyAddItem state sig := by
    simp [applyAdd, h]
  have h2 : applyAdd (applyAddItem state sig) sig =
      applyAddItem (applyAddItem state sig) sig := by
    have hcur : (applyAddItem state sig).Currency = state.Currency := rfl
    simp [applyAdd, hcur, h]
  rw [h1, h2]
  refine ⟨?_, ?_, ?_⟩
  · simp [applyAddItem]
  · simp only [applyAddItem]
    ring
  · simp [applyAddItem]

/-- Witness for C8 at a concrete state and signal. -/
theorem billWorkflow_counts_duplicate_signals_witness :
    ({ LineItemID := "li-1", AmountMinor := 1250, Description := "item one",
       Currency := "USD" } : AddLineItemSignal).Currency =
      (initState scenarioParams).Currency ∧
    (applyAdd (applyAdd (initState scenarioParams)
        { LineItemID := "li-1", AmountMinor := 1250, Description := "item one",
          Currency := "USD" })
        { LineItemID := "li-1", AmountMinor := 1250, Description := "item one",
          Currency := "USD" }).TotalMinor =
      (initState scenarioParams).TotalMinor + 2 * 1250 :=
  ⟨by decide,
   (billWorkflow_counts_duplicate_signals (initState scenarioParams)
     { LineItemID := "li-1", AmountMinor := 1250, Description := "item one",
       Currency := "USD" } (by decide)).2.1⟩

/-- C9: the orchestrator loop does not validate amount positivity: a
matching-currency signal whose amount is zero or negative is still
appended and its amount still added, so the running total strictly
decreases on a negative amount; and the `bill_line_items` schema
admissibility is independent of `amount_minor` (the table has no CHECK
constraint on it). -/
theorem billWorkflow_accepts_nonpositive_amount (state : BillResult)
    (sig : AddLineItemSignal) (hc : sig.Currency = state.Currency)
    (ha : sig.AmountMinor ≤ 0) :
    (applyAdd state sig).Items.length = state.Items.length + 1 ∧
    (applyAdd state sig).TotalMinor = state.TotalMinor + sig.AmountMinor ∧
    (sig.AmountMinor < 0 → (applyAdd state sig).TotalMinor < state.TotalMinor) ∧
    (∀ (db : DB) (li : LineItemRow) (a : Int),
      lineItemRowCheck db { li with amount_minor := a } = lineItemRowCheck db li) := by
  have h1 : applyAdd state sig = applyAddItem state sig := by
    simp [applyAdd, hc]
  rw [h1]
  refine ⟨by simp [applyAddItem], by simp [applyAddItem], ?_, ?_⟩
  · intro hneg
    simp only [applyAddItem]
    omega
  · intro db li a
    rfl

/-- Witness for C9 at a concrete state and a negative amount. -/
theorem billWorkflow_accepts_nonpositive_amount_witness :
    ({ LineItemID := "li-neg", AmountMinor := -300, Description := "refund",
       Currency := "USD" } : AddLineItemSignal).Currency =
      (initState scenarioParams).Currency ∧
    (applyAdd (initState scenarioParams)
      { LineItemID := "li-neg", AmountMinor := -300, Description := "refund",
        Currency := "USD" }).TotalMinor =
      (initState scenarioParams).TotalMinor + (-300) :=
  ⟨by decide,
   (billWorkflow_accepts_nonpositive_amount (initState scenarioParams)
     { LineItemID := "li-neg", AmountMinor := -300, Description := "refund",
       Currency := "USD" } (by decide) (by decide)).2.1⟩

/-- C7: the scenario run — AddLineItem(1250, USD), AddLineItem(725, USD),
Close on a freshly started USD bill — terminates the loop (the workflow
returns a result rather than still waiting), with TotalMinor 1975 and two
items; invoking the close step with that running total marks the stored
bill row Closed with total 1975. -/
theorem scenario_close_usd_bill :
    BillWorkflow scenarioParams scenarioCmds = some scenarioFinal ∧
    scenarioFinal.TotalMinor = 1975 ∧
    scenarioFinal.Items.length = 2 ∧
    (CloseBillActivity scenarioDB 7
        { BillID := "bill-1", TotalMinor := scenarioFinal.TotalMinor }).2 =
      Except.ok { id := "bill-1", status := StatusClosed, currency := "USD",
                  total_minor := 1975, created_at := 0, closed_at := some 7 } ∧
    (CloseBillActivity scenarioDB 7
        { BillID := "bill-1", TotalMinor := scenarioFinal.TotalMinor }).1.bills =
      [{ id := "bill-1", status := StatusClosed, currency := "USD",
         total_minor := 1975, created_at := 0, closed_at := some 7 }] := by
  refine ⟨by decide, by decide, by decide, by rfl, by rfl⟩

lemma closeBillActivity_fst (db : DB) (now : Nat) (inp : CloseBillInput) :
    (CloseBillActivity db now inp).1 =
      { db with bills :=
          db.bills.map (fun b => if closeMatches inp b then closeUpdate inp now b else b) } := by
  unfold CloseBillActivity
  cases hfind : db.bills.find? (closeMatches inp) <;> simp

lemma map_ite_noop {α : Type} (l : List α) (p : α → Bool) (f : α → α)
    (h : ∀ b ∈ l, p b = false) : l.map (fun b => if p b then f b else b) = l := by
  induction l with
  | nil => rfl
  | cons a t ih =>
    have ha := h a (List.mem_cons_self a t)
    simp only [List.map_cons, ha, if_false, Bool.false_eq_true]
    rw [ih (fun b hb => h b (List.mem_cons_of_mem a hb))]

lemma closeMatches_closeUpdate (inp1 inp2 : CloseBillInput) (now : Nat) (b : BillRow) :
    closeMatches inp2 (closeUpdate inp1 now b) = false := by
  simp [closeMatches, closeUpdate, StatusClosed, StatusOpen]

lemma closeBillActivity_of_find?_none (db : DB) (now : Nat) (inp : CloseBillInput)
    (h : db.bills.find? (closeMatches inp) = none) :
    CloseBillActivity db now inp =
      (db, Except.error { code := ErrCode.FailedPrecondition,
                          msg := "bill already closed or not found" }) := by
  have hall : ∀ b ∈ db.bills, closeMatches inp b = false := by
    intro b hb
    have := List.find?_eq_none.mp h b hb
    exact Bool.of_not_eq_true this
  have hmap := map_ite_noop db.bills (closeMatches inp) (closeUpdate inp now) hall
  unfold CloseBillActivity
  rw [h, hmap]

lemma closeMatches_false_after_close (db : DB) (now : Nat)
    (inp1 inp2 : CloseBillInput) (hbid : inp2.BillID = inp1.BillID) :
    ∀ r ∈ ((CloseBillActivity db now inp1).1).bills, closeMatches inp2 r = false := by
  intro r hr
  rw [closeBillActivity_fst] at hr
  simp only [List.mem_map] at hr
  obtain ⟨a, _, rfl⟩ := hr
  by_cases hm : closeMatches inp1 a
  · simp only [hm, if_true]
    exact closeMatches_closeUpdate inp1 inp2 now a
  · simp only [hm, if_false, Bool.false_eq_true]
    unfold closeMatches at hm ⊢
    rw [hbid]
    exact Bool.of_not_eq_true hm

/-- C3: closing the same bill twice succeeds at most once: after a
successful close, a second close invocation with the same `BillID` fails
with FailedPrecondition (the RETURNING scan of the status-conditioned
update finds no row) and leaves the bills table unchanged. -/
theorem closeBillActivity_second_call_fails (db : DB) (now1 now2 : Nat)
    (inp1 inp2 : CloseBillInput) (hbid : inp2.BillID = inp1.BillID)
    (b : BillRow) (h1 : (CloseBillActivity db now1 inp1).2 = Except.ok b) :
    (CloseBillActivity (CloseBillActivity db now1 inp1).1 now2 inp2).2 =
      Except.error { code := ErrCode.FailedPrecondition,
                     msg := "bill already closed or not found" } ∧
    (CloseBillActivity (CloseBillActivity db now1 inp1).1 now2 inp2).1 =
      (CloseBillActivity db now1 inp1).1 := by
  have hall := closeMatches_false_after_close db now1 inp1 inp2 hbid
  have hfind : ((CloseBillActivity db now1 inp1).1).bills.find? (closeMatches inp2) = none := by
    rw [List.find?_eq_none]
    intro x hx
    simp [hall x hx]
  have hkey := closeBillActivity_of_find?_none (CloseBillActivity db now1 inp1).1
    now2 inp2 hfind
  rw [hkey]
  exact ⟨rfl, rfl⟩

/-- Witness for C3: double close of the scenario bill. -/
theorem closeBillActivity_second_call_fails_witness :
    (CloseBillActivity
        (CloseBillActivity scenarioDB 5 { BillID := "bill-1", TotalMinor := 1975 }).1
        9 { BillID := "bill-1", TotalMinor := 1975 }).2 =
      Except.error { code := ErrCode.FailedPrecondition,
                     msg := "bill already closed or not found" } :=
  (closeBillActivity_second_call_fails scenarioDB 5 9
    { BillID := "bill-1", TotalMinor := 1975 }
    { BillID := "bill-1", TotalMinor := 1975 } rfl
    { id := "bill-1", status := StatusClosed, currency := "USD",
      total_minor := 1975, created_at := 0, closed_at := some 5 }
    (by rfl)).1

/-- C10: when no bills row exists for the given `BillID`, the close
activity fails with FailedPrecondition carrying the message
"bill already closed or not found" — never NotFound — and the outcome is
the very same as for a bill whose row exists but is already closed. -/
theorem closeBillActivity_unknown_bill_failed_precondition (db : DB) (now : Nat)
    (inp : CloseBillInput) (h : ∀ b ∈ db.bills, b.id ≠ inp.BillID) :
    (CloseBillActivity db now inp).2 =
      Except.error { code := ErrCode.FailedPrecondition,
                     msg := "bill already closed or not found" } ∧
    ∀ (db2 : DB) (now2 : Nat),
      (∀ b ∈ db2.bills, b.id = inp.BillID → b.status = StatusClosed) →
      (CloseBillActivity db2 now2 inp).2 = (CloseBillActivity db now inp).2 := by
  have hfind : db.bills.find? (closeMatches inp) = none := by
    rw [List.find?_eq_none]
    intro x hx
    simp [closeMatches, h x hx]
  have herr := closeBillActivity_of_find?_none db now inp hfind
  refine ⟨by rw [herr], ?_⟩
  intro db2 now2 h2
  have hfind2 : db2.bills.find? (closeMatches inp) = none := by
    rw [List.find?_eq_none]
    intro x hx
    simp only [closeMatches, Bool.and_eq_true, beq_iff_eq, not_and]
    intro hid
    rw [h2 x hx hid]
    simp [StatusClosed, StatusOpen]
  have herr2 := closeBillActivity_of_find?_none db2 now2 inp hfind2
  rw [herr, herr2]

/-- Witness for C10: closing a bill id absent from an empty bills table. -/
theorem closeBillActivity_unknown_bill_failed_precondition_witness :
    (CloseBillActivity { bills := [], lineItems := [] } 3
        { BillID := "no-such-bill", TotalMinor := 0 }).2 =
      Except.error { code := ErrCode.FailedPrecondition,
                     msg := "bill already closed or not found" } :=
  (closeBillActivity_unknown_bill_failed_precondition
    { bills := [], lineItems := [] } 3 { BillID := "no-such-bill", TotalMinor := 0 }
    (by intro b hb; simp at hb)).1

/-- C5: error contract of `AddLineItemActivity` when the target bill row
exists: InvalidArgument on a non-positive amount; FailedPrecondition when
the bill is Closed; FailedPrecondition on a currency mismatch; otherwise
success, returning exactly the line-item row stored under the supplied
`LineItemID` in the resulting database. -/
theorem addLineItemActivity_error_spec (db : DB) (now : Nat)
    (inp : AddLineItemInput) (b : BillRow)
    (hfind : db.bills.find? (fun r => r.id == inp.BillID) = some b) :
    (inp.AmountMinor ≤ 0 →
      (AddLineItemActivity db now inp).2 =
        Except.error { code := ErrCode.InvalidArgument, msg := "amount must be positive" }) ∧
    (0 < inp.AmountMinor → b.status = StatusClosed →
      (AddLineItemActivity db now inp).2 =
        Except.error { code := ErrCode.FailedPrecondition, msg := "bill is closed" }) ∧
    (0 < inp.AmountMinor → b.status = StatusOpen → b.currency ≠ inp.Currency →
      (AddLineItemActivity db now inp).2 =
        Except.error { code := ErrCode.FailedPrecondition, msg := "currency mismatch" }) ∧
    (0 < inp.AmountMinor → b.status = StatusOpen → b.currency = inp.Currency →
      ∃ li, (AddLineItemActivity db now inp).2 = Except.ok li ∧
        (AddLineItemActivity db now inp).1.lineItems.find?
          (fun r => r.id == inp.LineItemID) = some li) := by
  refine ⟨?_, ?_, ?_, ?_⟩
  · intro hle
    unfold AddLineItemActivity
    rw [if_pos hle]
  · intro hpos hclosed
    have hle : ¬ inp.AmountMinor ≤ 0 := not_le.mpr hpos
    have hne : b.status ≠ StatusOpen := by
      rw [hclosed]
      decide
    unfold AddLineItemActivity
    rw [if_neg hle, hfind]
    simp only [if_pos hne]
  · intro hpos hopen hne
    have hle : ¬ inp.AmountMinor ≤ 0 := not_le.mpr hpos
    have hnopen : ¬ b.status ≠ StatusOpen := by simp [hopen]
    unfold AddLineItemActivity
    rw [if_neg hle, hfind]
    simp only [if_neg hnopen, if_pos hne]
  · intro hpos hopen hcur
    have hle : ¬ inp.AmountMinor ≤ 0 := not_le.mpr hpos
    have hnopen : ¬ b.status ≠ StatusOpen := by simp [hopen]
    have hncur : ¬ b.currency ≠ inp.Currency := by simp [hcur]
    unfold AddLineItemActivity
    rw [if_neg hle, hfind]
    simp only [if_neg hnopen, if_neg hncur]
    by_cases hany : db.lineItems.any (fun r => r.id == inp.LineItemID)
    · have hsome : (db.lineItems.find? (fun r => r.id == inp.LineItemID)).isSome := by
        rw [List.find?_isSome]
        simpa using List.any_eq_true.mp hany
      obtain ⟨li, hli⟩ := Option.isSome_iff_exists.mp hsome
      refine ⟨li, ?_, ?_⟩ <;> simp [hany, hli]
    · have hfnone : db.lineItems.find? (fun r => r.id == inp.LineItemID) = none := by
        rw [List.find?_eq_none]
        intro x hx
        exact List.any_eq_false.mp (Bool.eq_false_iff.mpr hany) x hx
      have happ : ((db.lineItems ++
          [{ id := inp.LineItemID, bill_id := inp.BillID,
             description := inp.Description, amount_minor := inp.AmountMinor,
             created_at := now }] : List LineItemRow)).find?
            (fun r => r.id == inp.LineItemID) =
          some { id := inp.LineItemID, bill_id := inp.BillID,
                 description := inp.Description, amount_minor := inp.AmountMinor,
                 created_at := now } := by
        rw [List.find?_append, hfnone]
        simp [List.find?]
      refine ⟨{ id := inp.LineItemID, bill_id := inp.BillID,
                description := inp.Description, amount_minor := inp.AmountMinor,
                created_at := now }, ?_, ?_⟩ <;> simp [hany, happ]

/-- Witness for C5: a positive-amount insert against the open scenario
bill succeeds and the stored row is found back. -/
theorem addLineItemActivity_error_spec_witness :
    0 < (1250 : Int) ∧
    ∃ li, (AddLineItemActivity scenarioDB 4
        { LineItemID := "li-1", BillID := "bill-1", Description := "item one",
          AmountMinor := 1250, Currency := "USD" }).2 = Except.ok li ∧
      (AddLineItemActivity scenarioDB 4
        { LineItemID := "li-1", BillID := "bill-1", Description := "item one",
          AmountMinor := 1250, Currency := "USD" }).1.lineItems.find?
        (fun r => r.id == "li-1") = some li :=
  ⟨by decide,
   (addLineItemActivity_error_spec scenarioDB 4
     { LineItemID := "li-1", BillID := "bill-1", Description := "item one",
       AmountMinor := 1250, Currency := "USD" }
     { id := "bill-1", status := "OPEN", currency := "USD",
       total_minor := 0, created_at := 0, closed_at := none }
     (by rfl)).2.2.2 (by decide) (by rfl) (by rfl)⟩

/-- C4: a signal whose currency differs from the bill's is rejected
silently by the orchestrator — the in-memory state is returned unchanged
and no error is produced (the callback is total) — and a mismatched-
currency line item is never persisted: the activity leaves the database
unchanged and surfaces an error instead of inserting. -/
theorem wrong_currency_rejected_silently (state : BillResult)
    (sig : AddLineItemSignal) (hsig : sig.Currency ≠ state.Currency)
    (db : DB) (now : Nat) (inp : AddLineItemInput) (b : BillRow)
    (hfind : db.bills.find? (fun r => r.id == inp.BillID) = some b)
    (hcur : b.currency ≠ inp.Currency) :
    applyAdd state sig = state ∧
    (AddLineItemActivity db now inp).1 = db ∧
    ∃ e, (AddLineItemActivity db now inp).2 = Except.error e := by
  refine ⟨by simp [applyAdd, hsig], ?_, ?_⟩
  · unfold AddLineItemActivity
    by_cases hle : inp.AmountMinor ≤ 0
    · rw [if_pos hle]
    · rw [if_neg hle, hfind]
      by_cases hst : b.status ≠ StatusOpen
      · simp only [if_pos hst]
      · simp only [if_neg hst, if_pos hcur]
  · unfold AddLineItemActivity
    by_cases hle : inp.AmountMinor ≤ 0
    · rw [if_pos hle]
      exact ⟨_, rfl⟩
    · rw [if_neg hle, hfind]
      by_cases hst : b.status ≠ StatusOpen
      · simp only [if_pos hst]
        exact ⟨_, rfl⟩
      · simp only [if_neg hst, if_pos hcur]
        exact ⟨_, rfl⟩

/-- Witness for C4: a GEL signal against the USD scenario bill. -/
theorem wrong_currency_rejected_silently_witness :
    applyAdd (initState scenarioParams)
      { LineItemID := "li-gel", AmountMinor := 10, Description := "gel item",
        Currency := "GEL" } = initState scenarioParams ∧
    (AddLineItemActivity scenarioDB 4
      { LineItemID := "li-gel", BillID := "bill-1", Description := "gel item",
        AmountMinor := 10, Currency := "GEL" }).1 = scenarioDB :=
  ⟨(wrong_currency_rejected_silently (initState scenarioParams)
      { LineItemID := "li-gel", AmountMinor := 10, Description := "gel item",
        Currency := "GEL" } (by decide) scenarioDB 4
      { LineItemID := "li-gel", BillID := "bill-1", Description := "gel item",
        AmountMinor := 10, Currency := "GEL" }
      { id := "bill-1", status := "OPEN", currency := "USD",
        total_minor := 0, created_at := 0, closed_at := none }
      (by rfl) (by decide)).1,
   (wrong_currency_rejected_silently (initState scenarioParams)
      { LineItemID := "li-gel", AmountMinor := 10, Description := "gel item",
        Currency := "GEL" } (by decide) scenarioDB 4
      { LineItemID := "li-gel", BillID := "bill-1", Description := "gel item",
        AmountMinor := 10, Currency := "GEL" }
      { id := "bill-1", status := "OPEN", currency := "USD",
        total_minor := 0, created_at := 0, closed_at := none }
      (by rfl) (by decide)).2.1⟩

lemma addLineItemActivity_dup (db : DB) (now : Nat) (inp : AddLineItemInput)
    (b : BillRow)
    (hfind : db.bills.find? (fun r => r.id == inp.BillID) = some b)
    (hpos : 0 < inp.AmountMinor) (hopen : b.status = StatusOpen)
    (hcur : b.currency = inp.Currency) (li : LineItemRow)
    (hli : db.lineItems.find? (fun r => r.id == inp.LineItemID) = some li)
    (hany : db.lineItems.any (fun r => r.id == inp.LineItemID) = true) :
    AddLineItemActivity db now inp = (db, Except.ok li) := by
  have hle : ¬ inp.AmountMinor ≤ 0 := not_le.mpr hpos
  have hnopen : ¬ b.status ≠ StatusOpen := by simp [hopen]
  have hncur : ¬ b.currency ≠ inp.Currency := by simp [hcur]
  unfold AddLineItemActivity
  rw [if_neg hle, hfind]
  simp only [if_neg hnopen, if_neg hncur]
  simp [hany, hli]

lemma addLineItemActivity_fresh (db : DB) (now : Nat) (inp : AddLineItemInput)
    (b : BillRow)
    (hfind : db.bills.find? (fun r => r.id == inp.BillID) = some b)
    (hpos : 0 < inp.AmountMinor) (hopen : b.status = StatusOpen)
    (hcur : b.currency = inp.Currency)
    (hany : db.lineItems.any (fun r => r.id == inp.LineItemID) = false) :
    AddLineItemActivity db now inp =
      ({ db with lineItems := db.lineItems ++ [insertedRow now inp] },
       Except.ok (insertedRow now inp)) := by
  have hle : ¬ inp.AmountMinor ≤ 0 := not_le.mpr hpos
  have hnopen : ¬ b.status ≠ StatusOpen := by simp [hopen]
  have hncur : ¬ b.currency ≠ inp.Currency := by simp [hcur]
  have hfnone : db.lineItems.find? (fun r => r.id == inp.LineItemID) = none := by
    rw [List.find?_eq_none]
    exact List.any_eq_false.mp hany
  have happ : ((db.lineItems ++ [insertedRow now inp]).find?
      (fun r => r.id == inp.LineItemID)) = some (insertedRow now inp) := by
    rw [List.find?_append, hfnone]
    simp [List.find?, insertedRow]
  unfold AddLineItemActivity
  rw [if_neg hle, hfind]
  simp only [if_neg hnopen, if_neg hncur]
  simp only [hany, Bool.false_eq_true, if_false, insertedRow] at happ ⊢
  simp [happ]

/-- C2 counterexample: delivering the same insert-line-item step twice
(activity followed by the in-memory apply) with the same `LineItemID`
leaves exactly one stored row, but the amount 1250 ends up in the
in-memory running total twice (2500), not once: the claim's
"adds that item's AmountMinor to the bill's total exactly once" fails at
this concrete input. -/
theorem insertLineItemStep_twice_counterexample :
    (dupRun2.1.lineItems.filter (fun li => li.id == "li-dup")).length = 1 ∧
    dupRun2.2.TotalMinor = 2500 ∧
    ¬ dupRun2.2.TotalMinor = 1250 := by
  decide

/-- C2 amended: under the conditions that make both invocations succeed
(open bill, matching currency, positive amount, no previously stored row
with that id), two insert-line-item steps with the same `LineItemID`
produce exactly one stored row, while the in-memory apply adds the
amount once per invocation — twice in total — and appends two in-memory
entries. -/
theorem insertLineItemStep_twice_amended (db : DB) (state : BillResult)
    (now1 now2 : Nat) (inp : AddLineItemInput) (b : BillRow)
    (hfind : db.bills.find? (fun r => r.id == inp.BillID) = some b)
    (hopen : b.status = StatusOpen) (hcur : b.currency = inp.Currency)
    (hpos : 0 < inp.AmountMinor)
    (hnew : db.lineItems.any (fun r => r.id == inp.LineItemID) = false)
    (hstate : inp.Currency = state.Currency) :
    ((insertLineItemStep (insertLineItemStep db state now1 inp).1
        (insertLineItemStep db state now1 inp).2 now2 inp).1.lineItems.filter
        (fun li => li.id == inp.LineItemID)).length = 1 ∧
    (insertLineItemStep (insertLineItemStep db state now1 inp).1
        (insertLineItemStep db state now1 inp).2 now2 inp).2.TotalMinor =
      state.TotalMinor + 2 * inp.AmountMinor ∧
    (insertLineItemStep (insertLineItemStep db state now1 inp).1
        (insertLineItemStep db state now1 inp).2 now2 inp).2.Items.length =
      state.Items.length + 2 := by
  have act1 := addLineItemActivity_fresh db now1 inp b hfind hpos hopen hcur hnew
  have step1 : insertLineItemStep db state now1 inp =
      ({ db with lineItems := db.lineItems ++ [insertedRow now1 inp] },
       applyAddItem state
         { LineItemID := inp.LineItemID, AmountMinor := inp.AmountMinor,
           Description := inp.Description, Currency := inp.Currency }) := by
    unfold insertLineItemStep
    rw [act1]
    simp [applyAdd, hstate]
  have hfind1 : ({ db with lineItems := db.lineItems ++ [insertedRow now1 inp] } :
      DB).bills.find? (fun r => r.id == inp.BillID) = some b := hfind
  have hany1 : ({ db with lineItems := db.lineItems ++ [insertedRow now1 inp] } :
      DB).lineItems.any (fun r => r.id == inp.LineItemID) = true := by
    simp [insertedRow]
  have hfnone : db.lineItems.find? (fun r => r.id == inp.LineItemID) = none := by
    rw [List.find?_eq_none]
    exact List.any_eq_false.mp hnew
  have hli1 : ({ db with lineItems := db.lineItems ++ [insertedRow now1 inp] } :
      DB).lineItems.find? (fun r => r.id == inp.LineItemID) =
      some (insertedRow now1 inp) := by
    show ((db.lineItems ++ [insertedRow now1 inp]).find?
      (fun r => r.id == inp.LineItemID)) = some (insertedRow now1 inp)
    rw [List.find?_append, hfnone]
    simp [List.find?, insertedRow]
  have act2 := addLineItemActivity_dup
    { db with lineItems := db.lineItems ++ [insertedRow now1 inp] } now2 inp b
    hfind1 hpos hopen hcur (insertedRow now1 inp) hli1 hany1
  have step2 : insertLineItemStep
      ({ db with lineItems := db.lineItems ++ [insertedRow now1 inp] } : DB)
      (applyAddItem state
        { LineItemID := inp.LineItemID, AmountMinor := inp.AmountMinor,
          Description := inp.Description, Currency := inp.Currency }) now2 inp =
      ({ db with lineItems := db.lineItems ++ [insertedRow now1 inp] },
       applyAddItem (applyAddItem state
         { LineItemID := inp.LineItemID, AmountMinor := inp.AmountMinor,
           Description := inp.Description, Currency := inp.Currency })
         { LineItemID := inp.LineItemID, AmountMinor := inp.AmountMinor,
           Description := inp.Description, Currency := inp.Currency }) := by
    have hcur2 : (applyAddItem state
        { LineItemID := inp.LineItemID, AmountMinor := inp.AmountMinor,
          Description := inp.Description, Currency := inp.Currency }).Currency =
        state.Currency := rfl
    unfold insertLineItemStep
    rw [act2]
    simp only [applyAdd, hstate, hcur2, ne_eq]
    rw [if_neg (not_not_intro (show state.Currency =
      (applyAddItem state
        { LineItemID := inp.LineItemID, AmountMinor := inp.AmountMinor,
          Description := inp.Description, Currency := state.Currency }).Currency
      from rfl))]
  rw [step1, step2]
  have hfilter : ((db.lineItems ++ [insertedRow now1 inp]).filter
      (fun li => li.id == inp.LineItemID)) = [insertedRow now1 inp] := by
    rw [List.filter_append]
    have : db.lineItems.filter (fun li => li.id == inp.LineItemID) = [] := by
      rw [List.filter_eq_nil_iff]
      exact List.any_eq_false.mp hnew
    rw [this]
    simp [insertedRow]
  refine ⟨?_, ?_, ?_⟩
  · simp only []
    rw [hfilter]
    rfl
  · simp only [applyAddItem]
    ring
  · simp [applyAddItem]

/-- Witness for the amended C2 at the concrete duplicated delivery. -/
theorem insertLineItemStep_twice_amended_witness :
    ((insertLineItemStep (insertLineItemStep scenarioDB (initState scenarioParams) 1 dupInput).1
        (insertLineItemStep scenarioDB (initState scenarioParams) 1 dupInput).2 2
        dupInput).1.lineItems.filter (fun li => li.id == "li-dup")).length = 1 ∧
    (insertLineItemStep (insertLineItemStep scenarioDB (initState scenarioParams) 1 dupInput).1
        (insertLineItemStep scenarioDB (initState scenarioParams) 1 dupInput).2 2
        dupInput).2.TotalMinor = 0 + 2 * 1250 :=
  have h := insertLineItemStep_twice_amended scenarioDB (initState scenarioParams)
    1 2 dupInput
    { id := "bill-1", status := "OPEN", currency := "USD",
      total_minor := 0, created_at := 0, closed_at := none }
    (by rfl) (by rfl) (by rfl) (by decide) (by rfl) (by rfl)
  ⟨h.1, h.2.1⟩

end PB
